import Mathlib

/-!
Verification development for `classifier/classifier.py`, a single-pass
image-classification script (texture / local-binary-pattern / bag-of-visual-words
features, cached to disk, fed to cross-validated classifiers, emitted as CSV
submissions).

Shallow-embedding conventions
=============================

The script is Python 2 (it uses `print` statements), so `22425/2` is integer
division.  Library calls that are out of scope for the specification (image
decoding, haralick texture, LBP, dense SURF sampling, the k-means optimiser,
`km.predict`) are modelled as *parameters* of the embedded functions:

* `ct : String → T` models `compute_texture` (decode + haralick, one decode),
* `cl : String → P` models `compute_lbp` (decode + LBP, one decode),
* `sd : String → List Desc` models the decode/resize/`surf.dense` block
  (lines 386-394 of the source, one decode),
* `kmfit : ℕ → List Desc → KMeans Desc` models
  `MiniBatchKMeans(n_clusters=k, ...).fit(descriptors)`,
* `kmpredict : KMeans Desc → Desc → ℕ` models the per-row action of
  `km.predict`.

The pickle cache directory `objects/<split>/` is modelled by `FeatState`:
one `Option` slot per artifact file `objects/<split>/<split>_<kind>.obj`.
The script only ever writes those five file names, so the source's
"count the `*.obj` files" completeness test (line 369-371) is `objCount`.
Pickling/unpickling is modelled as the identity on values.

`np.ndarray` values are modelled as lists: a feature matrix is a list of rows.
`np.bincount(c, minlength=m)` is `bincount`; the slice `concatenated[::64]`
is `everyNth 64`.  `np.concatenate` raises `ValueError` on an empty list of
arrays, so `get_features` returns an `Option`, `none` exactly when the
from-scratch path is taken on an empty image list.

The vocabulary size `k = math.sqrt(22425/2)` is a Python float; its exact
real value is `kFloat`, and `kEff` is the integer the libraries actually
consume after the (deprecation-warned, 2016-era numpy/sklearn) truncating
coercions applied to `n_clusters` and `minlength`.
-/

namespace Classifier

/-- The module-level `classes` list: the ten class labels `c0`..`c9`. -/
def classes : List String :=
  ["c0", "c1", "c2", "c3", "c4", "c5", "c6", "c7", "c8", "c9"]

/-- Embedding of `get_images` (lines 203-231).  `globF pat` models `glob(pat)`,
returning the (arbitrary-order) list of matching paths; the source then
concatenates the per-class results (train) or takes the flat test directory,
and sorts the result in place (`images.sort()`, lexicographic). -/
def get_images (globF : String → List String) (train : Bool) : List String :=
  let images :=
    if train then
      (classes.map (fun i => globF ("imgs/train/" ++ i ++ "/*.jpg"))).flatten
    else
      globF "imgs/test/*.jpg"
  images.mergeSort (fun a b => decide (a ≤ b))

/-- A fitted `MiniBatchKMeans` model.  Its fitted state is represented by the
cluster count it was constructed with and the data it was fitted on; the
nearest-centre assignment itself is the external `kmpredict` parameter. -/
structure KMeans (Desc : Type) where
  nClusters : ℕ
  fittedOn : List Desc
deriving DecidableEq

/-- The five artifact kinds the script pickles, i.e. the five possible
`objects/<split>/<split>_<kind>.obj` files. -/
inductive ObjKind where
  | haralicks
  | lbps
  | labels
  | surfdescriptors
  | k_means
deriving DecidableEq

/-- Type of the value pickled for each artifact kind. -/
def ObjKind.Ty (Desc T P : Type) : ObjKind → Type
  | .haralicks => List T
  | .lbps => List P
  | .labels => List String
  | .surfdescriptors => List (List ℕ)
  | .k_means => KMeans Desc

/-- Contents of one split's cache directory `objects/<split>/`: one slot per
artifact file the script can write (absent file = `none`). -/
structure FeatState (Desc T P : Type) where
  haralicks : Option (List T)
  lbps : Option (List P)
  labels : Option (List String)
  surfdescriptors : Option (List (List ℕ))
  k_means : Option (KMeans Desc)
deriving DecidableEq

variable {Desc T P : Type}

/-- Look up one artifact slot (the file `<split>_<kind>.obj`). -/
def FeatState.slot (s : FeatState Desc T P) : (kind : ObjKind) → Option (kind.Ty Desc T P)
  | .haralicks => s.haralicks
  | .lbps => s.lbps
  | .labels => s.labels
  | .surfdescriptors => s.surfdescriptors
  | .k_means => s.k_means

/-- Overwrite one artifact slot (writing the file `<split>_<kind>.obj`). -/
def FeatState.setSlot (s : FeatState Desc T P) :
    (kind : ObjKind) → kind.Ty Desc T P → FeatState Desc T P
  | .haralicks, v => { s with haralicks := some v }
  | .lbps, v => { s with lbps := some v }
  | .labels, v => { s with labels := some v }
  | .surfdescriptors, v => { s with surfdescriptors := some v }
  | .k_means, v => { s with k_means := some v }

/-- Number of `*.obj` files in the split's cache directory (source line 369:
the script only ever writes the five artifact file names). -/
def FeatState.objCount (s : FeatState Desc T P) : ℕ :=
  [s.haralicks.isSome, s.lbps.isSome, s.labels.isSome,
   s.surfdescriptors.isSome, s.k_means.isSome].count true

/-- The whole on-disk artifact store: the two namespaces `objects/train/` and
`objects/test/`. -/
structure Store (Desc T P : Type) where
  train : FeatState Desc T P
  test : FeatState Desc T P
deriving DecidableEq

/-- The cache directory selected by the `train` flag (the
`if train: ... else: ...` filename dispatch of `get_obj`/`save_obj`). -/
def splitState (store : Store Desc T P) (train : Bool) : FeatState Desc T P :=
  if train then store.train else store.test

/-- Embedding of `get_obj` (lines 273-300): build the split-namespaced file
name, return `None` when the file does not exist, otherwise unpickle it. -/
def get_obj (store : Store Desc T P) (train : Bool) (kind : ObjKind) :
    Option (kind.Ty Desc T P) :=
  (splitState store train).slot kind

/-- Embedding of `save_obj` (lines 303-327): pickle `v` under the
split-namespaced file name. -/
def save_obj (store : Store Desc T P) (train : Bool) (kind : ObjKind)
    (v : kind.Ty Desc T P) : Store Desc T P :=
  if train then { store with train := store.train.setSlot kind v }
  else { store with test := store.test.setSlot kind v }

/-- Embedding of `get_kmeans` (lines 234-270): load the pickled model from the
*requested split's* namespace; if present return it unchanged, otherwise fit a
fresh `MiniBatchKMeans` on the supplied descriptors and persist it under that
same namespace.  The returned `Bool` records whether a fit was performed. -/
def get_kmeans (kmfit : ℕ → List Desc → KMeans Desc) (k : ℕ) (train : Bool)
    (store : Store Desc T P) (descriptors : List Desc) :
    KMeans Desc × Store Desc T P × Bool :=
  match get_obj store train .k_means with
  | some km => (km, store, false)
  | none =>
      let km := kmfit k descriptors
      (km, save_obj store train .k_means km, true)

/-- Embedding of `np.bincount(c, minlength)`: the result has length
`max minlength (max c + 1)` (`0` for empty `c`), entry `j` counting the
occurrences of `j` in `c`. -/
def bincount (c : List ℕ) (minlength : ℕ) : List ℕ :=
  (List.range (max minlength (c.foldr (fun x m => max (x + 1) m) 0))).map
    (fun j => c.count j)

/-- The histogram encoder of lines 403-405: `np.bincount(km.predict(d),
minlength=k)` for one image's descriptor set `d`. -/
def encodeHist (kmpredict : KMeans Desc → Desc → ℕ) (k : ℕ) (km : KMeans Desc)
    (d : List Desc) : List ℕ :=
  bincount (d.map (kmpredict km)) k

/-- Embedding of the stride slice `xs[::n]` (for `n ≥ 1`): every `n`-th
element, starting at index `0`. -/
def everyNth (n : ℕ) : List α → List α
  | [] => []
  | x :: xs => x :: everyNth n (xs.drop (n - 1))
termination_by l => l.length
decreasing_by
  simp only [List.length_drop, List.length_cons]
  omega

/-- The integer vocabulary size the libraries actually consume for a split:
Python 2 `22425/2 = 11212` resp. `79727/2 = 39863`, `math.sqrt` of that, then
truncation of the float by `n_clusters`/`minlength` coercions. -/
def kEff (train : Bool) : ℕ :=
  if train then Nat.sqrt (22425 / 2) else Nat.sqrt (79727 / 2)

/-- The exact value of the Python float `k = math.sqrt(22425/2)` resp.
`math.sqrt(79727/2)` computed at lines 362-366 (note: Python 2 *integer*
division inside, and no rounding anywhere). -/
noncomputable def kFloat (train : Bool) : ℝ :=
  Real.sqrt (((if train then 22425 else 79727) / 2 : ℕ) : ℝ)

/-- Modelled from the spec's words, for comparison with `kFloat`:
"`targetSize` (K) is fixed in advance as `round(sqrt(N/2))` where N is the
expected total descriptor count for the split being processed". -/
noncomputable def claimedVocabSize (train : Bool) : ℤ :=
  round (Real.sqrt ((if train then 22425 else 79727 : ℝ) / 2))

/-- The pooled descriptor sample of lines 396-399: concatenate every image's
descriptor set in image order (`np.concatenate(alldescriptors)`), then take
every 64th row (`concatenated[::64]`). -/
def pooledSample (sd : String → List Desc) (images : List String) : List Desc :=
  everyNth 64 (images.map sd).flatten

/-- Observable side-effect counters for one `get_features` run: how many image
decodes happened (`mh.imread` runs three times per image in the from-scratch
loop: in `compute_texture`, in `compute_lbp`, and at line 386) and how many
k-means fits were performed. -/
structure RunStats where
  decodes : ℕ
  kmeansFits : ℕ
deriving DecidableEq

/-- Embedding of `get_features` (lines 330-418).  If the split's cache
directory holds exactly five `.obj` files, the four array artifacts are
unpickled and returned with no image decode and no clustering.  Otherwise
every image is processed in list order (texture, LBP, train label from path
segment 2, dense SURF descriptors); the pooled subsampled descriptors go to
`get_kmeans`; every image's descriptor set is histogram-encoded with
`minlength = kEff train`; and the four artifacts are persisted.  The result is
`none` exactly when the from-scratch path runs on an empty image list, where
the source dies in `np.concatenate([])`. -/
def get_features (ct : String → T) (cl : String → P) (sd : String → List Desc)
    (kmfit : ℕ → List Desc → KMeans Desc) (kmpredict : KMeans Desc → Desc → ℕ)
    (train : Bool) (images : List String) (store : Store Desc T P) :
    Option ((List T × List P × List String × List (List ℕ)) × Store Desc T P × RunStats) :=
  if (splitState store train).objCount = 5 then
    some (((get_obj store train .haralicks).getD [],
           (get_obj store train .lbps).getD [],
           (get_obj store train .labels).getD [],
           (get_obj store train .surfdescriptors).getD []),
          store, ⟨0, 0⟩)
  else if images.isEmpty then
    none
  else
    let haralicks := images.map ct
    let lbps := images.map cl
    let labels := if train then images.map (fun f => (f.splitOn "/").getD 2 "") else []
    let alldescriptors := images.map sd
    let r := get_kmeans kmfit (kEff train) train store (pooledSample sd images)
    let surf_descriptors := alldescriptors.map (encodeHist kmpredict (kEff train) r.1)
    let store2 := save_obj r.2.1 train .surfdescriptors surf_descriptors
    let store3 := save_obj store2 train .haralicks haralicks
    let store4 := save_obj store3 train .lbps lbps
    let store5 := save_obj store4 train .labels labels
    some ((haralicks, lbps, labels, surf_descriptors), store5,
          ⟨3 * images.length, if r.2.2 then 1 else 0⟩)

/-- Python `x.split('/')[-1]`: the final path component. -/
def lastComponent (x : String) : String :=
  (x.splitOn "/").getLastD ""

/-- Transpose of an `nRows × nCols` ndarray given as a list of rows (the shape
is carried by the explicit `nCols`, as an ndarray carries its shape; for
well-formed rectangular input every `r[j]?` lookup succeeds). -/
def npTranspose (nCols : ℕ) (m : List (List ℚ)) : List (List ℚ) :=
  (List.range nCols).map (fun j => m.filterMap (fun r => r[j]?))

/-- The tuple unpacking `c0, c1, ..., c9 = preds` of line 182: succeeds only
on a list of exactly ten rows (anything else raises `ValueError`, modelled as
`none`). -/
def unpack10 {α : Type} (l : List α) : Option (List α) :=
  match l with
  | [a0, a1, a2, a3, a4, a5, a6, a7, a8, a9] =>
      some [a0, a1, a2, a3, a4, a5, a6, a7, a8, a9]
  | _ => none

/-- The column order the source selects when writing the CSV (line 199). -/
def submissionHeader : List String :=
  ["img", "c0", "c1", "c2", "c3", "c4", "c5", "c6", "c7", "c8", "c9"]

/-- Embedding of `create_submission` (lines 162-200) on the live path where
`preds` is the `(len images) × nCols` ndarray returned by `predict_proba`:
transpose it, unpack into the ten per-class columns, build the DataFrame row
per input image (`img` = final path component), and write the columns in the
order `img, c0..c9`.  The written CSV is modelled as the header plus the list
of rows in DataFrame index order. -/
def create_submission (nCols : ℕ) (preds : List (List ℚ)) (images : List String) :
    Option (List String × List (String × List ℚ)) :=
  (unpack10 (npTranspose nCols preds)).map (fun cols =>
    (submissionHeader,
      (List.range images.length).map
        (fun i => (lastComponent (images.getD i ""), cols.map (fun c => c.getD i 0)))))

/-! ### Helper lemmas -/

theorem foldr_max_succ_le {c : List ℕ} {K : ℕ} (h : ∀ x ∈ c, x < K) :
    c.foldr (fun x m => max (x + 1) m) 0 ≤ K := by
  induction c with
  | nil => simp
  | cons a t ih =>
      simp only [List.foldr_cons]
      have ha := h a (by simp)
      have ht := ih (fun x hx => h x (by simp [hx]))
      omega

theorem bincount_length {c : List ℕ} {K : ℕ} (h : ∀ x ∈ c, x < K) :
    (bincount c K).length = K := by
  simp [bincount, Nat.max_eq_left (foldr_max_succ_le h)]

theorem bincount_getElem {c : List ℕ} {K j : ℕ} (hj : j < K) :
    (bincount c K)[j]? = some (c.count j) := by
  have hj' : j < max K (c.foldr (fun x m => max (x + 1) m) 0) :=
    lt_of_lt_of_le hj (le_max_left _ _)
  simp [bincount, List.getElem?_map, List.getElem?_range hj']

theorem bincount_nil (K : ℕ) : bincount [] K = List.replicate K 0 := by
  simp [bincount]

theorem everyNth_getElem? {α : Type} {n : ℕ} (hn : 0 < n) :
    ∀ (xs : List α) (i : ℕ), (everyNth n xs)[i]? = xs[n * i]? := by
  have H : ∀ (m : ℕ) (xs : List α), xs.length ≤ m → ∀ i,
      (everyNth n xs)[i]? = xs[n * i]? := by
    intro m
    induction m with
    | zero =>
        intro xs hxs i
        cases xs with
        | nil => simp [everyNth]
        | cons x t => simp at hxs
    | succ m ih =>
        intro xs hxs i
        cases xs with
        | nil => simp [everyNth]
        | cons x t =>
            cases i with
            | zero => simp [everyNth]
            | succ j =>
                have hlen : (t.drop (n - 1)).length ≤ m := by
                  simp only [List.length_drop]
                  simp only [List.length_cons] at hxs
                  omega
                have hrec := ih (t.drop (n - 1)) hlen j
                have h1 : n * (j + 1) = n * j + n := by ring
                have hmul : n * (j + 1) = (n - 1 + n * j) + 1 := by omega
                rw [hmul]
                simp only [everyNth, List.getElem?_cons_succ]
                rw [hrec, List.getElem?_drop]
  intro xs i
  exact H xs.length xs le_rfl i

theorem objCount_eq_five {s : FeatState Desc T P} (h : s.objCount = 5) :
    s.haralicks.isSome ∧ s.lbps.isSome ∧ s.labels.isSome ∧
      s.surfdescriptors.isSome ∧ s.k_means.isSome := by
  rcases s with ⟨h1, h2, h3, h4, h5⟩
  simp only [FeatState.objCount] at h
  cases h1 <;> cases h2 <;> cases h3 <;> cases h4 <;> cases h5 <;> simp_all

theorem map_getD_range (r : List ℚ) :
    (List.range r.length).map (fun j => r.getD j 0) = r := by
  induction r with
  | nil => simp
  | cons a t ih =>
      rw [List.length_cons, List.range_succ_eq_map, List.map_cons, List.map_map]
      simp only [List.getD_cons_zero]
      congr 1

theorem filterMap_getElem_col {preds : List (List ℚ)} {j : ℕ}
    (h2 : ∀ r ∈ preds, j < r.length) :
    ∀ i, i < preds.length →
      (preds.filterMap (fun r => r[j]?)).getD i 0 = (preds.getD i []).getD j 0 := by
  induction preds with
  | nil => intro i hi; simp at hi
  | cons p ps ih =>
      intro i hi
      have hp : j < p.length := h2 p (by simp)
      have hpj : p[j]? = some (p.getD j 0) := by
        rw [List.getElem?_eq_getElem hp, List.getD_eq_getElem _ _ hp]
      rw [List.filterMap_cons, hpj]
      cases i with
      | zero => simp
      | succ i' =>
          simp only [List.getD_cons_succ]
          exact ih (fun r hr => h2 r (by simp [hr])) i' (by simpa using hi)

theorem unpack10_eq_none {α : Type} {l : List α} (h : l.length ≠ 10) :
    unpack10 l = none := by
  rcases l with _ | ⟨a0, _ | ⟨a1, _ | ⟨a2, _ | ⟨a3, _ | ⟨a4, _ | ⟨a5, _ | ⟨a6,
    _ | ⟨a7, _ | ⟨a8, _ | ⟨a9, _ | ⟨a10, t⟩⟩⟩⟩⟩⟩⟩⟩⟩⟩⟩ <;>
    first
      | rfl
      | (exfalso; exact h rfl)

theorem get_images_sorted (globF : String → List String) (train : Bool) :
    List.Sorted (fun a b => a ≤ b) (get_images globF train) := by
  have htr : ∀ (a b c : String), decide (a ≤ b) = true → decide (b ≤ c) = true →
      decide (a ≤ c) = true := by
    intro a b c hab hbc
    simp only [decide_eq_true_eq] at *
    exact le_trans hab hbc
  have hto : ∀ (a b : String), (decide (a ≤ b) || decide (b ≤ a)) = true := by
    intro a b
    rcases le_total a b with h | h <;> simp [h]
  exact List.Pairwise.imp (fun h => of_decide_eq_true h)
    (List.sorted_mergeSort htr hto _)

theorem transpose_row {preds : List (List ℚ)} (h2 : ∀ r ∈ preds, r.length = 10)
    {i : ℕ} (hi : i < preds.length) :
    (npTranspose 10 preds).map (fun c => c.getD i 0) = preds.getD i [] := by
  have hmem : preds.getD i [] ∈ preds := by
    rw [List.getD_eq_getElem _ _ hi]
    exact List.getElem_mem hi
  have hrow : (preds.getD i []).length = 10 := h2 _ hmem
  rw [npTranspose, List.map_map]
  have hcong : ∀ j ∈ List.range 10,
      ((fun c => c.getD i 0) ∘ fun j => preds.filterMap (fun r => r[j]?)) j =
        (preds.getD i []).getD j 0 := by
    intro j hj
    simp only [Function.comp]
    exact filterMap_getElem_col
      (fun r hr => by rw [h2 r hr]; exact List.mem_range.mp hj) i hi
  rw [List.map_congr_left hcong]
  conv_lhs => rw [show (10 : ℕ) = (preds.getD i []).length from hrow.symm]
  exact map_getD_range _

theorem claimedVocabSize_train : claimedVocabSize true = 106 := by
  have h0 : (0 : ℝ) ≤ 22425 / 2 := by norm_num
  have hs := Real.sq_sqrt h0
  have hnn := Real.sqrt_nonneg ((22425 : ℝ) / 2)
  have hub : Real.sqrt ((22425 : ℝ) / 2) < 106.5 := by nlinarith
  have hlb : (105.5 : ℝ) ≤ Real.sqrt ((22425 : ℝ) / 2) := by nlinarith
  simp only [claimedVocabSize, if_true]
  rw [round_eq]
  apply Int.floor_eq_iff.mpr
  constructor
  · push_cast
    linarith
  · push_cast
    linarith

theorem claimedVocabSize_test : claimedVocabSize false = 200 := by
  have h0 : (0 : ℝ) ≤ 79727 / 2 := by norm_num
  have hs := Real.sq_sqrt h0
  have hnn := Real.sqrt_nonneg ((79727 : ℝ) / 2)
  have hub : Real.sqrt ((79727 : ℝ) / 2) < 200.5 := by nlinarith
  have hlb : (199.5 : ℝ) ≤ Real.sqrt ((79727 : ℝ) / 2) := by nlinarith
  simp only [claimedVocabSize, Bool.false_eq_true, if_false]
  rw [round_eq]
  apply Int.floor_eq_iff.mpr
  constructor
  · push_cast
    linarith
  · push_cast
    linarith

theorem kFloat_train_eq : kFloat true = Real.sqrt 11212 := by
  simp only [kFloat, if_true]
  norm_num

theorem kFloat_test_eq : kFloat false = Real.sqrt 39863 := by
  simp only [kFloat, Bool.false_eq_true, if_false]
  norm_num

theorem kFloat_train_ne_106 : kFloat true ≠ 106 := by
  rw [kFloat_train_eq]
  intro h
  have := Real.sq_sqrt (show (0 : ℝ) ≤ 11212 by norm_num)
  rw [h] at this
  norm_num at this

theorem kFloat_test_ne_200 : kFloat false ≠ 200 := by
  rw [kFloat_test_eq]
  intro h
  have := Real.sq_sqrt (show (0 : ℝ) ≤ 39863 by norm_num)
  rw [h] at this
  norm_num at this

/-! ### Claim theorems -/

/-- C1 (code-bug exhibit): with an empty test-namespace cache, `get_kmeans`
for the test split fits a *fresh* model on the test split's own descriptors
and persists it under `objects/test/` — it never consults the training
namespace.  Here the training namespace holds a persisted vocabulary
(`nClusters = 105`, fitted on `[1, 2, 3]`), yet the model returned for
test-histogram encoding is a refit (`nClusters = 199`, fitted on the test
descriptors `[7, 8]`), a different model than the persisted training one. -/
theorem c1_test_split_refits_vocabulary :
    get_kmeans (fun k d => (⟨k, d⟩ : KMeans ℕ)) 199 false
        (⟨⟨none, none, none, none, some ⟨105, [1, 2, 3]⟩⟩,
          ⟨none, none, none, none, none⟩⟩ : Store ℕ ℕ ℕ) [7, 8] =
      ((⟨199, [7, 8]⟩ : KMeans ℕ),
        (⟨⟨none, none, none, none, some ⟨105, [1, 2, 3]⟩⟩,
          ⟨none, none, none, none, some ⟨199, [7, 8]⟩⟩⟩ : Store ℕ ℕ ℕ), true) ∧
    ((⟨199, [7, 8]⟩ : KMeans ℕ) ≠ ⟨105, [1, 2, 3]⟩) := by
  exact ⟨rfl, by decide⟩

/-- C2: the histogram encoder (`np.bincount(km.predict(d), minlength=K)`,
lines 403-405) returns a vector of length exactly `K` whenever the model's
assignments lie below `K` (the library contract for a vocabulary of size `K`),
with unused centres zero-filled, and a descriptor-less image encodes to the
all-zero vector of length `K` rather than an error. -/
theorem c2_histogram_encoder_length {Desc : Type}
    (kmpredict : KMeans Desc → Desc → ℕ) (K : ℕ) (km : KMeans Desc)
    (d : List Desc) (h : ∀ x ∈ d, kmpredict km x < K) :
    (encodeHist kmpredict K km d).length = K ∧
    (∀ j, j < K → (∀ x ∈ d, kmpredict km x ≠ j) →
        (encodeHist kmpredict K km d)[j]? = some 0) ∧
    (d = [] → encodeHist kmpredict K km d = List.replicate K 0) := by
  refine ⟨?_, ?_, ?_⟩
  · apply bincount_length
    intro x hx
    obtain ⟨y, hy, rfl⟩ := List.mem_map.mp hx
    exact h y hy
  · intro j hj hne
    rw [encodeHist, bincount_getElem hj]
    have hnm : j ∉ d.map (kmpredict km) := by
      intro hmem
      obtain ⟨y, hy, hyj⟩ := List.mem_map.mp hmem
      exact hne y hy hyj
    rw [List.count_eq_zero.mpr hnm]
  · rintro rfl
    simp [encodeHist, bincount_nil]

/-- Witness for C2 at a concrete model (`K = 3`, assignments `y % 3`). -/
theorem c2_histogram_encoder_length_witness :
    (∀ x ∈ [0, 1, 1], (fun (_ : KMeans ℕ) (y : ℕ) => y % 3) (⟨3, []⟩ : KMeans ℕ) x < 3) ∧
    ((encodeHist (fun (_ : KMeans ℕ) (y : ℕ) => y % 3) 3 ⟨3, []⟩ [0, 1, 1]).length = 3 ∧
      (∀ j, j < 3 →
          (∀ x ∈ [0, 1, 1], (fun (_ : KMeans ℕ) (y : ℕ) => y % 3) ⟨3, []⟩ x ≠ j) →
          (encodeHist (fun (_ : KMeans ℕ) (y : ℕ) => y % 3) 3 ⟨3, []⟩ [0, 1, 1])[j]? = some 0) ∧
      (([0, 1, 1] : List ℕ) = [] →
        encodeHist (fun (_ : KMeans ℕ) (y : ℕ) => y % 3) 3 ⟨3, []⟩ [0, 1, 1] =
          List.replicate 3 0)) :=
  ⟨by decide, c2_histogram_encoder_length _ 3 _ _ (by decide)⟩

/-- C4 counterexample: the `k` the code passes to the clustering step for the
train split is the Python float `math.sqrt(22425/2)` = √11212 (Python 2
integer division, no rounding), which differs from the claimed
`round(sqrt(N/2))` = 106. -/
theorem c4_vocab_size_counterexample :
    kFloat true ≠ (claimedVocabSize true : ℝ) := by
  have h1 : ((106 : ℤ) : ℝ) = (106 : ℝ) := by norm_num
  rw [claimedVocabSize_train, h1]
  exact kFloat_train_ne_106

/-- C4 amended: for each split the code passes `K = sqrt(N // 2)` to the
clustering step — the unrounded square root of the floor-divided expected
count (√11212 for train, √39863 for test) — which differs from the spec's
`round(sqrt(N/2))` (106 for train, 200 for test). -/
theorem c4_vocab_size_amended :
    kFloat true = Real.sqrt 11212 ∧ kFloat false = Real.sqrt 39863 ∧
    claimedVocabSize true = 106 ∧ claimedVocabSize false = 200 ∧
    kFloat true ≠ (claimedVocabSize true : ℝ) ∧
    kFloat false ≠ (claimedVocabSize false : ℝ) := by
  have h1 : ((106 : ℤ) : ℝ) = (106 : ℝ) := by norm_num
  have h2 : ((200 : ℤ) : ℝ) = (200 : ℝ) := by norm_num
  refine ⟨kFloat_train_eq, kFloat_test_eq, claimedVocabSize_train,
    claimedVocabSize_test, ?_, ?_⟩
  · rw [claimedVocabSize_train, h1]
    exact kFloat_train_ne_106
  · rw [claimedVocabSize_test, h2]
    exact kFloat_test_ne_200

/-- C8: the artifact-store `get` (lines 273-300) yields `none` — not an
error — when no cached file exists for the `(split, kind)` key, yields the
deserialized artifact when the file exists, returns what `save_obj` stored
under the same key, and is untouched by writes to the other split's
namespace. -/
theorem c8_get_obj_absent {Desc T P : Type} (store : Store Desc T P)
    (train : Bool) (kind : ObjKind) :
    ((splitState store train).slot kind = none → get_obj store train kind = none) ∧
    (∀ v, (splitState store train).slot kind = some v →
        get_obj store train kind = some v) ∧
    (∀ v, get_obj (save_obj store train kind v) train kind = some v) ∧
    (∀ v, get_obj (save_obj store (!train) kind v) train kind =
        get_obj store train kind) := by
  refine ⟨fun h => h, fun v h => h, fun v => ?_, fun v => ?_⟩
  · cases train <;> cases kind <;>
      simp [get_obj, save_obj, splitState, FeatState.setSlot, FeatState.slot]
  · cases train <;> cases kind <;>
      simp [get_obj, save_obj, splitState, FeatState.setSlot, FeatState.slot]

/-- Witness for C8: an absent key gives `none`, a present key gives the
stored artifact. -/
theorem c8_get_obj_absent_witness :
    get_obj (⟨⟨none, none, none, none, none⟩,
        ⟨none, none, none, none, none⟩⟩ : Store ℕ ℕ ℕ) true .haralicks = none ∧
    get_obj (⟨⟨some [1], none, none, none, none⟩,
        ⟨none, none, none, none, none⟩⟩ : Store ℕ ℕ ℕ) true .haralicks = some [1] :=
  ⟨(c8_get_obj_absent _ true .haralicks).1 rfl,
   (c8_get_obj_absent _ true .haralicks).2.1 [1] rfl⟩

/-- C9: whenever a pickled model exists for the requested split, `get_kmeans`
(lines 255-259) returns it unchanged — ignoring both the requested cluster
count `k` and the supplied descriptors, performing no fit and no store
write — so the returned model's cluster count may differ from the `k` used
downstream as the histogram length. -/
theorem c9_cached_model_returned {Desc T P : Type}
    (kmfit : ℕ → List Desc → KMeans Desc) (k : ℕ) (train : Bool)
    (store : Store Desc T P) (descriptors : List Desc) (km : KMeans Desc)
    (h : get_obj store train .k_means = some km) :
    get_kmeans kmfit k train store descriptors = (km, store, false) := by
  simp [get_kmeans, h]

/-- Witness for C9: a cached model with 7 clusters is returned verbatim for a
request with `k = 3`; its cluster count differs from `k`. -/
theorem c9_cached_model_returned_witness :
    get_obj (⟨⟨none, none, none, none, some ⟨7, [5]⟩⟩,
        ⟨none, none, none, none, none⟩⟩ : Store ℕ ℕ ℕ) true .k_means =
      some ⟨7, [5]⟩ ∧
    get_kmeans (fun k d => ⟨k, d⟩) 3 true
        (⟨⟨none, none, none, none, some ⟨7, [5]⟩⟩,
          ⟨none, none, none, none, none⟩⟩ : Store ℕ ℕ ℕ) [1, 2] =
      (⟨7, [5]⟩, ⟨⟨none, none, none, none, some ⟨7, [5]⟩⟩,
        ⟨none, none, none, none, none⟩⟩, false) ∧
    KMeans.nClusters ⟨7, [5]⟩ ≠ 3 :=
  ⟨rfl, c9_cached_model_returned (fun k d => ⟨k, d⟩) 3 true _ [1, 2] _ rfl,
   by decide⟩

/-- C10: `create_submission` unpacks the transposed predictions into exactly
ten per-class columns (line 182), so predictions whose per-class dimension is
not 10 make it fail instead of writing a CSV. -/
theorem c10_unpack_requires_ten (nCols : ℕ) (preds : List (List ℚ))
    (images : List String) (h : nCols ≠ 10) :
    create_submission nCols preds images = none := by
  have hlen : (npTranspose nCols preds).length = nCols := by simp [npTranspose]
  unfold create_submission
  rw [unpack10_eq_none (by rw [hlen]; exact h)]
  rfl

/-- Witness for C10: three-class predictions are rejected. -/
theorem c10_unpack_requires_ten_witness :
    (3 : ℕ) ≠ 10 ∧ create_submission 3 [[1, 2, 3]] ["imgs/test/a.jpg"] = none :=
  ⟨by decide, c10_unpack_requires_ten 3 [[1, 2, 3]] ["imgs/test/a.jpg"] (by decide)⟩

/-- C3: when the split's cache directory holds a complete artifact set (the
"exactly five `.obj` files" condition of lines 369-371), `get_features`
returns the four cached matrices verbatim, decodes zero images, performs no
clustering, and leaves the store unchanged; consequently re-running it on the
returned store reproduces bit-identical results. -/
theorem c3_warm_cache_verbatim {Desc T P : Type} (ct : String → T)
    (cl : String → P) (sd : String → List Desc)
    (kmfit : ℕ → List Desc → KMeans Desc) (kmpredict : KMeans Desc → Desc → ℕ)
    (train : Bool) (images : List String) (store : Store Desc T P)
    (hm : List T) (lm : List P) (lv : List String) (sm : List (List ℕ))
    (h : (splitState store train).objCount = 5)
    (hh : (splitState store train).haralicks = some hm)
    (hl : (splitState store train).lbps = some lm)
    (hv : (splitState store train).labels = some lv)
    (hs : (splitState store train).surfdescriptors = some sm) :
    get_features ct cl sd kmfit kmpredict train images store =
      some ((hm, lm, lv, sm), store, ⟨0, 0⟩) ∧
    (∀ res st2 stats,
      get_features ct cl sd kmfit kmpredict train images store =
        some (res, st2, stats) →
      get_features ct cl sd kmfit kmpredict train images st2 =
        some (res, st2, stats)) := by
  have hmain : get_features ct cl sd kmfit kmpredict train images store =
      some ((hm, lm, lv, sm), store, ⟨0, 0⟩) := by
    unfold get_features
    rw [if_pos h]
    simp [get_obj, FeatState.slot, hh, hl, hv, hs]
  refine ⟨hmain, ?_⟩
  intro res st2 stats hrun
  rw [hmain] at hrun
  simp only [Option.some.injEq, Prod.mk.injEq] at hrun
  obtain ⟨hres, hst, hstats⟩ := hrun
  subst hst
  subst hres
  subst hstats
  exact hmain

/-- Witness for C3 on a fully populated train cache. -/
theorem c3_warm_cache_verbatim_witness :
    ((splitState (⟨⟨some [10], some [20], some ["c0"], some [[3]], some ⟨2, [9]⟩⟩,
        ⟨none, none, none, none, none⟩⟩ : Store ℕ ℕ ℕ) true).objCount = 5) ∧
    get_features (fun _ : String => (0 : ℕ)) (fun _ : String => (0 : ℕ))
        (fun _ : String => ([] : List ℕ)) (fun k d => (⟨k, d⟩ : KMeans ℕ))
        (fun _ x => x) true ["imgs/train/c0/a.jpg"]
        (⟨⟨some [10], some [20], some ["c0"], some [[3]], some ⟨2, [9]⟩⟩,
          ⟨none, none, none, none, none⟩⟩ : Store ℕ ℕ ℕ) =
      some (([10], [20], ["c0"], [[3]]),
        ⟨⟨some [10], some [20], some ["c0"], some [[3]], some ⟨2, [9]⟩⟩,
          ⟨none, none, none, none, none⟩⟩, ⟨0, 0⟩) :=
  ⟨by decide,
   (c3_warm_cache_verbatim (fun _ : String => (0 : ℕ)) (fun _ : String => (0 : ℕ))
      (fun _ : String => ([] : List ℕ)) (fun k d => (⟨k, d⟩ : KMeans ℕ))
      (fun _ x => x) true ["imgs/train/c0/a.jpg"]
      (⟨⟨some [10], some [20], some ["c0"], some [[3]], some ⟨2, [9]⟩⟩,
        ⟨none, none, none, none, none⟩⟩ : Store ℕ ℕ ℕ)
      [10] [20] ["c0"] [[3]] (by decide) rfl rfl rfl rfl).1⟩

/-- C5: on the from-scratch path, row `i` of the texture, pattern and
histogram matrices is computed from `images[i]`, the train label at index `i`
is the class-directory segment (`split('/')[2]`) of `images[i]`'s path, and
`get_images` produces its list in deterministic lexicographically sorted
order. -/
theorem c5_row_alignment {Desc T P : Type} (ct : String → T) (cl : String → P)
    (sd : String → List Desc) (kmfit : ℕ → List Desc → KMeans Desc)
    (kmpredict : KMeans Desc → Desc → ℕ) (train : Bool) (images : List String)
    (store : Store Desc T P)
    (hscr : (splitState store train).objCount ≠ 5) (hne : images ≠ []) :
    (∀ i (hi : i < images.length),
      ((get_features ct cl sd kmfit kmpredict train images store).bind
          (fun r => r.1.1[i]?)) = some (ct (images.get ⟨i, hi⟩)) ∧
      ((get_features ct cl sd kmfit kmpredict train images store).bind
          (fun r => r.1.2.1[i]?)) = some (cl (images.get ⟨i, hi⟩)) ∧
      ((get_features ct cl sd kmfit kmpredict train images store).bind
          (fun r => r.1.2.2.2[i]?)) =
        some (encodeHist kmpredict (kEff train)
          (get_kmeans kmfit (kEff train) train store (pooledSample sd images)).1
          (sd (images.get ⟨i, hi⟩))) ∧
      (train = true →
        ((get_features ct cl sd kmfit kmpredict train images store).bind
            (fun r => r.1.2.2.1[i]?)) =
          some (((images.get ⟨i, hi⟩).splitOn "/").getD 2 ""))) ∧
    (∀ globF tr, List.Sorted (fun a b : String => a ≤ b) (get_images globF tr)) := by
  have hEmpty : images.isEmpty = false := by
    cases images
    · exact absurd rfl hne
    · rfl
  constructor
  · intro i hi
    refine ⟨?_, ?_, ?_, ?_⟩
    · simp [get_features, hscr, hEmpty, List.getElem?_map,
        List.getElem?_eq_getElem hi, List.get_eq_getElem]
    · simp [get_features, hscr, hEmpty, List.getElem?_map,
        List.getElem?_eq_getElem hi, List.get_eq_getElem]
    · simp [get_features, hscr, hEmpty, List.getElem?_map,
        List.getElem?_eq_getElem hi, List.get_eq_getElem]
    · intro ht
      subst ht
      simp [get_features, hscr, hEmpty, List.getElem?_map,
        List.getElem?_eq_getElem hi, List.get_eq_getElem]
  · exact fun globF tr => get_images_sorted globF tr

/-- Witness for C5 on a one-image train split with an empty cache. -/
theorem c5_row_alignment_witness :
    ((splitState (⟨⟨none, none, none, none, none⟩,
        ⟨none, none, none, none, none⟩⟩ : Store ℕ ℕ ℕ) true).objCount ≠ 5) ∧
    ((["imgs/train/c0/a.jpg"] : List String) ≠ []) ∧
    ((∀ i (hi : i < (["imgs/train/c0/a.jpg"] : List String).length),
      ((get_features (fun _ : String => (0 : ℕ)) (fun _ : String => (1 : ℕ))
          (fun _ : String => ([2] : List ℕ)) (fun k d => (⟨k, d⟩ : KMeans ℕ))
          (fun _ x => x) true ["imgs/train/c0/a.jpg"]
          (⟨⟨none, none, none, none, none⟩,
            ⟨none, none, none, none, none⟩⟩ : Store ℕ ℕ ℕ)).bind
          (fun r => r.1.1[i]?)) =
        some ((fun _ : String => (0 : ℕ))
          ((["imgs/train/c0/a.jpg"] : List String).get ⟨i, hi⟩)) ∧
      ((get_features (fun _ : String => (0 : ℕ)) (fun _ : String => (1 : ℕ))
          (fun _ : String => ([2] : List ℕ)) (fun k d => (⟨k, d⟩ : KMeans ℕ))
          (fun _ x => x) true ["imgs/train/c0/a.jpg"]
          (⟨⟨none, none, none, none, none⟩,
            ⟨none, none, none, none, none⟩⟩ : Store ℕ ℕ ℕ)).bind
          (fun r => r.1.2.1[i]?)) =
        some ((fun _ : String => (1 : ℕ))
          ((["imgs/train/c0/a.jpg"] : List String).get ⟨i, hi⟩)) ∧
      ((get_features (fun _ : String => (0 : ℕ)) (fun _ : String => (1 : ℕ))
          (fun _ : String => ([2] : List ℕ)) (fun k d => (⟨k, d⟩ : KMeans ℕ))
          (fun _ x => x) true ["imgs/train/c0/a.jpg"]
          (⟨⟨none, none, none, none, none⟩,
            ⟨none, none, none, none, none⟩⟩ : Store ℕ ℕ ℕ)).bind
          (fun r => r.1.2.2.2[i]?)) =
        some (encodeHist (fun _ x => x) (kEff true)
          (get_kmeans (fun k d => (⟨k, d⟩ : KMeans ℕ)) (kEff true) true
            (⟨⟨none, none, none, none, none⟩,
              ⟨none, none, none, none, none⟩⟩ : Store ℕ ℕ ℕ)
            (pooledSample (fun _ : String => ([2] : List ℕ))
              ["imgs/train/c0/a.jpg"])).1
          ((fun _ : String => ([2] : List ℕ))
            ((["imgs/train/c0/a.jpg"] : List String).get ⟨i, hi⟩))) ∧
      (true = true →
        ((get_features (fun _ : String => (0 : ℕ)) (fun _ : String => (1 : ℕ))
            (fun _ : String => ([2] : List ℕ)) (fun k d => (⟨k, d⟩ : KMeans ℕ))
            (fun _ x => x) true ["imgs/train/c0/a.jpg"]
            (⟨⟨none, none, none, none, none⟩,
              ⟨none, none, none, none, none⟩⟩ : Store ℕ ℕ ℕ)).bind
            (fun r => r.1.2.2.1[i]?)) =
          some ((((["imgs/train/c0/a.jpg"] : List String).get
            ⟨i, hi⟩).splitOn "/").getD 2 ""))) ∧
    (∀ globF tr, List.Sorted (fun a b : String => a ≤ b) (get_images globF tr))) :=
  ⟨by decide, by decide,
   c5_row_alignment (fun _ : String => (0 : ℕ)) (fun _ : String => (1 : ℕ))
     (fun _ : String => ([2] : List ℕ)) (fun k d => (⟨k, d⟩ : KMeans ℕ))
     (fun _ x => x) true ["imgs/train/c0/a.jpg"]
     (⟨⟨none, none, none, none, none⟩,
       ⟨none, none, none, none, none⟩⟩ : Store ℕ ℕ ℕ)
     (by decide) (by decide)⟩

/-- C6: on the from-scratch path with no cached model, the collection handed
to the clustering step (and persisted as the split's fitted model) is exactly
`pooledSample`: the concatenation, in image order, of every image's descriptor
set, subsampled by the fixed deterministic stride of every 64th row. -/
theorem c6_pooled_subsample {Desc T P : Type} (ct : String → T) (cl : String → P)
    (sd : String → List Desc) (kmfit : ℕ → List Desc → KMeans Desc)
    (kmpredict : KMeans Desc → Desc → ℕ) (train : Bool) (images : List String)
    (store : Store Desc T P)
    (hscr : (splitState store train).objCount ≠ 5) (hne : images ≠ [])
    (hkm : (splitState store train).k_means = none) :
    ((get_features ct cl sd kmfit kmpredict train images store).map
        (fun r => (splitState r.2.1 train).k_means)) =
      some (some (kmfit (kEff train) (pooledSample sd images))) ∧
    (∀ i, (pooledSample sd images)[i]? = ((images.map sd).flatten)[64 * i]?) := by
  have hEmpty : images.isEmpty = false := by
    cases images
    · exact absurd rfl hne
    · rfl
  constructor
  · cases train <;>
      simp only [splitState, if_true, Bool.false_eq_true, if_false] at hscr hkm <;>
      simp [get_features, hscr, hEmpty, get_kmeans, get_obj, splitState,
        FeatState.slot, hkm, save_obj, FeatState.setSlot]
  · intro i
    exact everyNth_getElem? (by norm_num) _ i

/-- Witness for C6 on a one-image test split with an empty cache. -/
theorem c6_pooled_subsample_witness :
    ((splitState (⟨⟨none, none, none, none, none⟩,
        ⟨none, none, none, none, none⟩⟩ : Store ℕ ℕ ℕ) false).objCount ≠ 5) ∧
    ((["imgs/test/a.jpg"] : List String) ≠ []) ∧
    ((splitState (⟨⟨none, none, none, none, none⟩,
        ⟨none, none, none, none, none⟩⟩ : Store ℕ ℕ ℕ) false).k_means = none) ∧
    (((get_features (fun _ : String => (0 : ℕ)) (fun _ : String => (1 : ℕ))
          (fun _ : String => ([2] : List ℕ)) (fun k d => (⟨k, d⟩ : KMeans ℕ))
          (fun _ x => x) false ["imgs/test/a.jpg"]
          (⟨⟨none, none, none, none, none⟩,
            ⟨none, none, none, none, none⟩⟩ : Store ℕ ℕ ℕ)).map
        (fun r => (splitState r.2.1 false).k_means)) =
      some (some ((fun k d => (⟨k, d⟩ : KMeans ℕ)) (kEff false)
        (pooledSample (fun _ : String => ([2] : List ℕ)) ["imgs/test/a.jpg"]))) ∧
    (∀ i, (pooledSample (fun _ : String => ([2] : List ℕ))
        ["imgs/test/a.jpg"])[i]? =
      (((["imgs/test/a.jpg"] : List String).map
        (fun _ : String => ([2] : List ℕ))).flatten)[64 * i]?)) :=
  ⟨by decide, by decide, rfl,
   c6_pooled_subsample (fun _ : String => (0 : ℕ)) (fun _ : String => (1 : ℕ))
     (fun _ : String => ([2] : List ℕ)) (fun k d => (⟨k, d⟩ : KMeans ℕ))
     (fun _ x => x) false ["imgs/test/a.jpg"]
     (⟨⟨none, none, none, none, none⟩,
       ⟨none, none, none, none, none⟩⟩ : Store ℕ ℕ ℕ)
     (by decide) (by decide) rfl⟩

/-- C7: for rectangular predictions with one row per image and exactly ten
per-class probabilities per row, `create_submission` writes the columns in
the order `img, c0..c9` and row `i` holds the final path component of
`images[i]` followed by that image's ten class probabilities, rows in the
input image order. -/
theorem c7_submission_layout (preds : List (List ℚ)) (images : List String)
    (h1 : preds.length = images.length) (h2 : ∀ r ∈ preds, r.length = 10) :
    create_submission 10 preds images =
      some (submissionHeader,
        (List.range images.length).map
          (fun i => (lastComponent (images.getD i ""), preds.getD i []))) := by
  have hT : unpack10 (npTranspose 10 preds) = some (npTranspose 10 preds) := by
    have h10 : List.range 10 = [0, 1, 2, 3, 4, 5, 6, 7, 8, 9] := rfl
    rw [npTranspose, h10]
    rfl
  unfold create_submission
  rw [hT, Option.map_some']
  have hrows : ∀ i ∈ List.range images.length,
      (lastComponent (images.getD i ""),
        (npTranspose 10 preds).map (fun c => c.getD i 0)) =
      (lastComponent (images.getD i ""), preds.getD i []) := by
    intro i hi
    have hip : i < preds.length := by
      rw [h1]
      exact List.mem_range.mp hi
    rw [transpose_row h2 hip]
  rw [List.map_congr_left hrows]

/-- Witness for C7 on a single test image with ten class probabilities. -/
theorem c7_submission_layout_witness :
    (([[(1 : ℚ), 2, 3, 4, 5, 6, 7, 8, 9, 10]] : List (List ℚ)).length =
      (["imgs/test/a.jpg"] : List String).length) ∧
    (∀ r ∈ ([[(1 : ℚ), 2, 3, 4, 5, 6, 7, 8, 9, 10]] : List (List ℚ)),
      r.length = 10) ∧
    create_submission 10 [[(1 : ℚ), 2, 3, 4, 5, 6, 7, 8, 9, 10]]
        ["imgs/test/a.jpg"] =
      some (submissionHeader,
        (List.range (["imgs/test/a.jpg"] : List String).length).map
          (fun i => (lastComponent ((["imgs/test/a.jpg"] : List String).getD i ""),
            ([[(1 : ℚ), 2, 3, 4, 5, 6, 7, 8, 9, 10]] : List (List ℚ)).getD i []))) :=
  ⟨by decide, by decide,
   c7_submission_layout [[(1 : ℚ), 2, 3, 4, 5, 6, 7, 8, 9, 10]]
     ["imgs/test/a.jpg"] (by decide) (by decide)⟩

end Classifier
